import Mathlib

/-!
Verification of the spa-prerenderer repository.

The development shallowly embeds the three JavaScript modules of the
repository:

* `lib/options.js` — the `Options.validate` static method;
* `lib/server.js` — the `Server` wrapper around an Express server
  (modelled as the trace of external calls it makes);
* `index.js` — the `Prerenderer` class (`constructor`, `init`,
  `getMarkup`, `saveFile`), modelled as pure functions over explicit
  environments that stand for the external collaborators (puppeteer
  pages, the filesystem, the `selfsigned` and `portfinder-sync`
  packages) together with event traces recording the order of the
  external calls.

JavaScript dynamic values that the validator inspects are embedded as
`JSValue`; JavaScript strings are embedded as Lean `String` with the
`String.prototype` operations used by the code (`startsWith`,
`endsWith`, `slice(0, -1)`, `split('/')`) defined over `String.data`.
-/

namespace SpaPrerenderer

/-- A JavaScript runtime value, as far as the code inspects values:
`null`, booleans (`typeof x === 'boolean'`), strings, numbers and
arrays (`Array.isArray`). -/
inductive JSValue where
  | null
  | bool (b : Bool)
  | str (s : String)
  | num (n : Int)
  | arr (elems : List JSValue)

/-- A thrown JavaScript error: the code throws `Error(msg)` or
`TypeError(msg)`; puppeteer rejections with a timeout are
`timeoutError`. -/
inductive JsErr where
  | error (msg : String)
  | typeError (msg : String)
  | timeoutError (msg : String)
  deriving DecidableEq, Repr

/-- `typeof v === 'boolean'`. -/
def typeofBoolean : JSValue → Bool
  | .bool _ => true
  | _ => false

/-- `Array.isArray(v)`. -/
def isArray : JSValue → Bool
  | .arr _ => true
  | _ => false

/-- JavaScript `s.startsWith(p)`. -/
def jsStartsWith (s p : String) : Bool := p.data.isPrefixOf s.data

/-- JavaScript `s.endsWith(p)`. -/
def jsEndsWith (s p : String) : Bool := p.data.isSuffixOf s.data

/-- JavaScript `s.slice(0, -1)`: the string without its last character. -/
def jsSliceDropLast (s : String) : String := ⟨s.data.dropLast⟩

/-- Node's `path.isAbsolute` (posix): non-empty and begins with `'/'`. -/
def pathIsAbsolute (s : String) : Bool := jsStartsWith s "/"

/-- The options object as `Options.validate` receives it from the
`Prerenderer` constructor (after destructuring defaults).  `staticDir`
is `null` or a path string — `path.isAbsolute` accepts only strings —
while the fields the validator checks only by type, or does not look
at at all, are arbitrary `JSValue`s. -/
structure Config where
  staticDir : Option String
  routes : JSValue
  outputDir : JSValue
  waitForElement : JSValue
  useHttps : JSValue
  supressOutput : JSValue
  stopOnPageError : JSValue

namespace Options

/-- `Options.validate` from `lib/options.js`, line by line:
`staticDir === null` → `Error('staticDir must be explicitly set.')`;
`!path.isAbsolute(staticDir)` → `Error('staticDir must be an absolute path.')`;
`!Array.isArray(routes)` → `TypeError('routes must be an array.')`;
then `typeof` checks for `useHttps`, `supressOutput`,
`stopOnPageError`, each a `TypeError`; otherwise `return true`. -/
def validate (o : Config) : Except JsErr Bool :=
  match o.staticDir with
  | none => .error (.error "staticDir must be explicitly set.")
  | some s =>
    if pathIsAbsolute s = false then
      .error (.error "staticDir must be an absolute path.")
    else if isArray o.routes = false then
      .error (.typeError "routes must be an array.")
    else if typeofBoolean o.useHttps = false then
      .error (.typeError "useHttps must be a boolean value.")
    else if typeofBoolean o.supressOutput = false then
      .error (.typeError "supressOutput must be a boolean value.")
    else if typeofBoolean o.stopOnPageError = false then
      .error (.typeError "stopOnPageError must be a boolean value.")
    else
      .ok true

end Options

/-- C1: option validation checks the rules in order and fails with the
first violated one: missing `staticDir` → "must be explicitly set"
`Error`; relative `staticDir` → "must be an absolute path" `Error`;
non-array `routes` → `TypeError`; then each boolean flag (`useHttps`,
`supressOutput`, `stopOnPageError`) in turn → a `TypeError` naming the
field; otherwise validation succeeds. -/
theorem C1_validate_order (o : Config) :
    (o.staticDir = none →
      Options.validate o = .error (.error "staticDir must be explicitly set.")) ∧
    (∀ s, o.staticDir = some s → pathIsAbsolute s = false →
      Options.validate o = .error (.error "staticDir must be an absolute path.")) ∧
    (∀ s, o.staticDir = some s → pathIsAbsolute s = true →
      isArray o.routes = false →
      Options.validate o = .error (.typeError "routes must be an array.")) ∧
    (∀ s, o.staticDir = some s → pathIsAbsolute s = true →
      isArray o.routes = true → typeofBoolean o.useHttps = false →
      Options.validate o = .error (.typeError "useHttps must be a boolean value.")) ∧
    (∀ s, o.staticDir = some s → pathIsAbsolute s = true →
      isArray o.routes = true → typeofBoolean o.useHttps = true →
      typeofBoolean o.supressOutput = false →
      Options.validate o = .error (.typeError "supressOutput must be a boolean value.")) ∧
    (∀ s, o.staticDir = some s → pathIsAbsolute s = true →
      isArray o.routes = true → typeofBoolean o.useHttps = true →
      typeofBoolean o.supressOutput = true →
      typeofBoolean o.stopOnPageError = false →
      Options.validate o = .error (.typeError "stopOnPageError must be a boolean value.")) ∧
    (∀ s, o.staticDir = some s → pathIsAbsolute s = true →
      isArray o.routes = true → typeofBoolean o.useHttps = true →
      typeofBoolean o.supressOutput = true →
      typeofBoolean o.stopOnPageError = true →
      Options.validate o = .ok true) := by
  refine ⟨?_, ?_, ?_, ?_, ?_, ?_, ?_⟩ <;>
    · intro h
      try intro h2
      try intro h3
      try intro h4
      try intro h5
      try intro h6
      try intro h7
      simp_all [Options.validate]

/-- Witness for C1 at a concrete configuration: an absolute
`staticDir` with a non-array `routes` fails with the routes
`TypeError`. -/
theorem C1_validate_order_witness :
    Options.validate
      { staticDir := some "/site", routes := .str "/not-an-array",
        outputDir := .str ".", waitForElement := .null,
        useHttps := .bool true, supressOutput := .bool false,
        stopOnPageError := .bool false }
      = .error (.typeError "routes must be an array.") :=
  (C1_validate_order _).2.2.1 "/site" rfl rfl rfl

/-- C9: validation never inspects `outputDir` or `waitForElement`:
replacing them by arbitrary values does not change the result, and a
configuration with valid `staticDir`, `routes` and boolean flags
validates successfully whatever those two fields hold. -/
theorem C9_validate_ignores_outputDir_waitForElement
    (o : Config) (x y : JSValue) :
    Options.validate { o with outputDir := x, waitForElement := y }
      = Options.validate o ∧
    (∀ s, o.staticDir = some s → pathIsAbsolute s = true →
      isArray o.routes = true → typeofBoolean o.useHttps = true →
      typeofBoolean o.supressOutput = true →
      typeofBoolean o.stopOnPageError = true →
      Options.validate o = .ok true) := by
  constructor
  · cases o with
    | mk sd r od w uh so se => cases sd <;> rfl
  · intro s h1 h2 h3 h4 h5 h6
    simp_all [Options.validate]

/-- Witness for C9: a numeric `outputDir` and an array
`waitForElement` are accepted when everything the validator checks is
valid. -/
theorem C9_validate_ignores_witness :
    Options.validate
      { staticDir := some "/site", routes := .arr [.str "/"],
        outputDir := .num 7, waitForElement := .arr [],
        useHttps := .bool true, supressOutput := .bool true,
        stopOnPageError := .bool false }
      = .ok true :=
  (C9_validate_ignores_outputDir_waitForElement
    { staticDir := some "/site", routes := .arr [.str "/"],
      outputDir := .num 7, waitForElement := .arr [],
      useHttps := .bool true, supressOutput := .bool true,
      stopOnPageError := .bool false } (.num 7) (.arr [])).2
    "/site" rfl rfl rfl rfl rfl rfl

/-! ## Route normalization and target paths (`index.js`, `init`) -/

/-- `route = route.startsWith('/') ? route : `/${route}`` from
`init()`. -/
def normalizeRoute (route : String) : String :=
  if jsStartsWith route "/" = true then route else "/" ++ route

/-- `targetBase = this.outputDir.endsWith('/') ?
this.outputDir.slice(0, -1) : this.outputDir` from `init()`. -/
def trimOutputDir (outputDir : String) : String :=
  if jsEndsWith outputDir "/" = true then jsSliceDropLast outputDir
  else outputDir

/-- ``const target = `${targetBase}${route}/index.html` `` from
`init()`, with `route` already normalized. -/
def targetPath (outputDir route : String) : String :=
  trimOutputDir outputDir ++ normalizeRoute route ++ "/index.html"

/-- Collapse consecutive `'/'` characters: two path strings that agree
after collapsing denote the same file on a posix filesystem. -/
def collapseSlashes : List Char → List Char
  | [] => []
  | [c] => [c]
  | a :: b :: rest =>
    if a = '/' ∧ b = '/' then collapseSlashes (b :: rest)
    else a :: collapseSlashes (b :: rest)

/-- Posix-normalize a path string by collapsing repeated slashes. -/
def pathNormalize (s : String) : String := ⟨collapseSlashes s.data⟩

theorem collapseSlashes_double_slash (xs ys : List Char) :
    collapseSlashes (xs ++ '/' :: '/' :: ys)
      = collapseSlashes (xs ++ '/' :: ys) := by
  induction xs with
  | nil => simp [collapseSlashes]
  | cons a xs ih =>
    cases xs with
    | nil =>
      by_cases h : a = '/'
      · subst h
        simp [collapseSlashes]
      · simp [collapseSlashes, h]
    | cons b xs =>
      by_cases h : a = '/' ∧ b = '/'
      · simpa [collapseSlashes, h] using ih
      · simpa [collapseSlashes, h] using ih

/-- The normalized route always starts with `'/'`. -/
theorem jsStartsWith_normalizeRoute (r : String) :
    jsStartsWith (normalizeRoute r) "/" = true := by
  unfold normalizeRoute
  by_cases h : jsStartsWith r "/" = true
  · rw [if_pos h]
    exact h
  · rw [if_neg h]
    simp [jsStartsWith, String.data_append]

/-- Trimming removes exactly one trailing slash: appending it back
restores the original `outputDir`. -/
theorem trimOutputDir_endsWith (o : String)
    (h : jsEndsWith o "/" = true) : trimOutputDir o ++ "/" = o := by
  have hs : ("/" : String).data <:+ o.data :=
    List.isSuffixOf_iff_suffix.mp h
  obtain ⟨t, ht⟩ := hs
  apply String.ext
  rw [String.data_append]
  unfold trimOutputDir
  rw [if_pos h]
  show (jsSliceDropLast o).data ++ ['/'] = o.data
  unfold jsSliceDropLast
  rw [← ht]
  simp

/-- Normalizing `targetPath` for the root route: the computed string
`<targetBase>//index.html` denotes the same posix path as
`<outputDir>/index.html`. -/
theorem pathNormalize_targetPath_root (o : String) :
    pathNormalize (targetPath o "/") = pathNormalize (o ++ "/index.html") := by
  have hroot : normalizeRoute "/" = "/" := rfl
  unfold targetPath
  rw [hroot]
  by_cases h : jsEndsWith o "/" = true
  · rw [show trimOutputDir o ++ "/" ++ "/index.html" = o ++ "/index.html" by
      rw [trimOutputDir_endsWith o h]]
  · have h2 : trimOutputDir o = o := by
      unfold trimOutputDir
      rw [if_neg h]
    rw [h2]
    apply String.ext
    show collapseSlashes (o ++ "/" ++ "/index.html").data
        = collapseSlashes (o ++ "/index.html").data
    rw [String.data_append, String.data_append, String.data_append]
    simpa using collapseSlashes_double_slash o.data "index.html".data

/-! ## The `Prerenderer` runtime (`index.js`) -/

namespace Prerenderer

/-- The fields the constructor stores on `this`, after a validated
configuration: this is the state `init`/`getMarkup`/`saveFile` read. -/
structure Inst where
  staticDir : String
  routes : List String
  outputDir : String
  waitForElement : Option String
  useHttps : Bool
  supressOutput : Bool
  stopOnPageError : Bool
  port : Nat

/-- Calls `getMarkup` makes on its fresh puppeteer page, in order. -/
inductive PageEv where
  | newPage
  | onError
  | onPageError
  | goto (url : String) (timeoutMs : Nat)
  | waitForSelector (selector : String) (timeoutMs : Nat)
  | content
  deriving DecidableEq, Repr

/-- The external behaviour of one fresh puppeteer page: what
`page.goto` and `page.waitForSelector` resolve or reject with, and
what `page.content()` returns. -/
structure PageEnv where
  goto : String → Nat → Except JsErr Unit
  waitForSelector : String → Nat → Except JsErr Unit
  content : String

/-- ``const url = `http${s}://localhost:${this.port}${route}` `` with
`const s = this.useHttps === true ? 's' : ''`. -/
def buildUrl (useHttps : Bool) (port : Nat) (route : String) : String :=
  "http" ++ (if useHttps = true then "s" else "")
    ++ "://localhost:" ++ toString port ++ route

/-- `getMarkup(route)` from `index.js`: open a new page, attach the
`'error'` and `'pageerror'` listeners (unconditionally), navigate to
the url with `{timeout: 60000}`, wait for `this.waitForElement` with
`{timeout: 60000}` when it is not `null`, and return
`page.content()`.  The result is paired with the trace of page calls,
and a rejection of `goto`/`waitForSelector` rejects `getMarkup`. -/
def getMarkup (env : PageEnv) (p : Inst) (route : String) :
    Except JsErr String × List PageEv :=
  match env.goto (buildUrl p.useHttps p.port route) 60000 with
  | .error e =>
    (.error e,
     [PageEv.newPage, PageEv.onError, PageEv.onPageError,
      PageEv.goto (buildUrl p.useHttps p.port route) 60000])
  | .ok _ =>
    match p.waitForElement with
    | none =>
      (.ok env.content,
       [PageEv.newPage, PageEv.onError, PageEv.onPageError,
        PageEv.goto (buildUrl p.useHttps p.port route) 60000,
        PageEv.content])
    | some sel =>
      match env.waitForSelector sel 60000 with
      | .error e =>
        (.error e,
         [PageEv.newPage, PageEv.onError, PageEv.onPageError,
          PageEv.goto (buildUrl p.useHttps p.port route) 60000,
          PageEv.waitForSelector sel 60000])
      | .ok _ =>
        (.ok env.content,
         [PageEv.newPage, PageEv.onError, PageEv.onPageError,
          PageEv.goto (buildUrl p.useHttps p.port route) 60000,
          PageEv.waitForSelector sel 60000,
          PageEv.content])

/-- `${this.waitForElement}` as interpolated into the handler's log
line (`null` when the option is absent). -/
def waitForElementText (p : Inst) : String :=
  match p.waitForElement with
  | none => "null"
  | some s => s

/-- The `page.on('error', ...)` handler body: rethrows the error when
`this.stopOnPageError === true`, otherwise `console.log`s the message
(modelled as the `ok` value). -/
def errorHandler (p : Inst) (err : String) : Except JsErr String :=
  if p.stopOnPageError = true then .error (.error err)
  else
    .ok ("Error: " ++ err
      ++ "If this prevents the `waitForElement` element "
      ++ waitForElementText p ++ " from loading, the prerender will timeout.")

/-- The `page.on('pageerror', ...)` handler body, identical but for
the log label. -/
def pageErrorHandler (p : Inst) (err : String) : Except JsErr String :=
  if p.stopOnPageError = true then .error (.error err)
  else
    .ok ("Page error: " ++ err
      ++ "If this prevents the `waitForElement` element "
      ++ waitForElementText p ++ " from loading, the prerender will timeout.")

/-- Externally visible effects of `init`, per route and at teardown. -/
inductive Ev where
  | fileSaved (path content : String)
  | browserClose
  | serverStop
  deriving DecidableEq, Repr

/-- The external world one `init` pass runs against: a fresh page
environment per (normalized) route, and the outcome of each
`saveFile` call. -/
structure InitEnv where
  pageOf : String → PageEnv
  save : String → String → Except JsErr Unit

/-- The body of one route's async task inside `init`'s
`Promise.all(this.routes.map(...))`: normalize the route, compute the
target path, fetch the markup, save the file; any rejection rejects
the task. -/
def routeTask (env : InitEnv) (p : Inst) (route : String) :
    Except JsErr (String × String) :=
  match (getMarkup (env.pageOf (normalizeRoute route)) p
      (normalizeRoute route)).1 with
  | .error e => .error e
  | .ok content =>
    match env.save (targetPath p.outputDir route) content with
    | .error e => .error e
    | .ok _ => .ok (targetPath p.outputDir route, content)

end Prerenderer

/-- `Promise.all`: resolves with every task's value when all resolve,
rejects with a rejecting task's error otherwise (the first in task
order here; with exactly one rejecting task this is that task's error
whatever the settling order). -/
def joinAll {α : Type} : List (Except JsErr α) → Except JsErr (List α)
  | [] => .ok []
  | .error e :: _ => .error e
  | .ok a :: rest =>
    match joinAll rest with
    | .error e => .error e
    | .ok vs => .ok (a :: vs)

/-- The `fileSaved` events of the tasks that completed: tasks other
than the rejecting one still run to completion even though
`Promise.all` has already rejected. -/
def savedEvents : List (Except JsErr (String × String)) → List Prerenderer.Ev
  | [] => []
  | .ok v :: rest => Prerenderer.Ev.fileSaved v.1 v.2 :: savedEvents rest
  | .error _ :: rest => savedEvents rest

namespace Prerenderer

/-- `init()` from `index.js`: after `startBrowser()`, join all route
tasks with `Promise.all`; only if the join resolves, run
`this.browser.close()` then `this.server.destroy()` and return
`true`.  A rejecting join rejects `init` and the teardown statements
after the `await` are never reached. -/
def init (env : InitEnv) (p : Inst) : Except JsErr Bool × List Ev :=
  match joinAll (p.routes.map (routeTask env p)) with
  | .error e => (.error e, savedEvents (p.routes.map (routeTask env p)))
  | .ok rs =>
    (.ok true,
     rs.map (fun v => Ev.fileSaved v.1 v.2)
       ++ [Ev.browserClose, Ev.serverStop])

/-- Resource acquisitions observable during `new Prerenderer(...)`. -/
inductive CtorEv where
  | portResolved (base port : Nat)
  | serverCreated (port : Nat)
  | serverInitCalled
  | browserLaunched
  deriving DecidableEq, Repr

/-- The `Prerenderer` constructor after destructuring: validate the
options; only on success resolve a port with
`portfinder.getPort(3000)` (`portEnv` models `portfinder-sync`),
create the `Server` and call `server.init()`.  A validation failure
propagates synchronously and nothing else runs. -/
def construct (portEnv : Nat → Nat) (o : Config) :
    Except JsErr Nat × List CtorEv :=
  match Options.validate o with
  | .error e => (.error e, [])
  | .ok _ =>
    (.ok (portEnv 3000),
     [CtorEv.portResolved 3000 (portEnv 3000),
      CtorEv.serverCreated (portEnv 3000),
      CtorEv.serverInitCalled])

end Prerenderer

/-! ## The `Server` wrapper (`lib/server.js`) -/

namespace Server

/-- The `serverOptions` object the orchestrator passes down. -/
structure Options where
  port : Nat
  useHttps : Bool
  staticDir : String

/-- The options object passed to `selfsigned.generate`. -/
structure CertOpts where
  keySize : Nat
  days : Nat
  algorithm : String
  deriving DecidableEq, Repr

/-- What `selfsigned.generate` returns (the fields the code reads). -/
structure Pems where
  priv : String
  cert : String

/-- The external `selfsigned` package. -/
structure SelfSignedEnv where
  generate : List (String × String) → CertOpts → Pems

/-- `generateSelfSignedCert()` from `lib/server.js`: calls
`selfsigned.generate` with `[{name: 'commonName', value:
'localhost'}]` and `{keySize: 2048, days: 30, algorithm: 'sha256'}`
and repackages `{key: pems.private, cert: pems.cert}`. -/
def generateSelfSignedCert (env : SelfSignedEnv) : Pems :=
  env.generate [("commonName", "localhost")]
    { keySize := 2048, days := 30, algorithm := "sha256" }

/-- External calls `Server.init` makes, in order. -/
inductive ServerEv where
  | certGenerated (attrs : List (String × String)) (opts : CertOpts)
  | httpsCreateServer (key cert : String)
  | listen (port : Nat)
  deriving DecidableEq, Repr

/-- `init()` from `lib/server.js`: inside the returned promise,
`generateSelfSignedCert()` runs first, unconditionally; then the
ternary on `this._options.useHttps === true` either creates an
`https` server with the generated key and cert and listens, or
listens on the plain Express server. -/
def init (env : SelfSignedEnv) (o : Options) : List ServerEv :=
  ServerEv.certGenerated [("commonName", "localhost")]
      { keySize := 2048, days := 30, algorithm := "sha256" } ::
    (if o.useHttps = true then
      [ServerEv.httpsCreateServer (generateSelfSignedCert env).priv
          (generateSelfSignedCert env).cert,
       ServerEv.listen o.port]
    else
      [ServerEv.listen o.port])

/-- Whether an event is a certificate generation. -/
def isCertGenerated : ServerEv → Bool
  | .certGenerated _ _ => true
  | _ => false

end Server

/-! ## Lemmas about the `Promise.all` join -/

theorem joinAll_all_ok {α : Type} (l : List (Except JsErr α))
    (h : ∀ x ∈ l, ∃ v, x = .ok v) : ∃ vs, joinAll l = .ok vs := by
  induction l with
  | nil => exact ⟨[], rfl⟩
  | cons x rest ih =>
    obtain ⟨v, hv⟩ := h x (by simp)
    subst hv
    obtain ⟨vs, hvs⟩ := ih fun y hy => h y (by simp [hy])
    refine ⟨v :: vs, ?_⟩
    unfold joinAll
    rw [hvs]

theorem joinAll_single_error {α : Type} (l : List (Except JsErr α))
    (e : JsErr) (h1 : Except.error e ∈ l)
    (h2 : ∀ x ∈ l, x = .error e ∨ ∃ v, x = .ok v) :
    joinAll l = .error e := by
  induction l with
  | nil => simp at h1
  | cons x rest ih =>
    rcases h2 x (by simp) with hx | ⟨v, hv⟩
    · subst hx
      rfl
    · subst hv
      have h1' : Except.error e ∈ rest := by
        rcases List.mem_cons.mp h1 with h | h
        · exact absurd h (by simp)
        · exact h
      have := ih h1' fun y hy => h2 y (by simp [hy])
      unfold joinAll
      rw [this]

theorem savedEvents_mem (l : List (Except JsErr (String × String)))
    (ev : Prerenderer.Ev) (h : ev ∈ savedEvents l) :
    ∃ pa ct, ev = Prerenderer.Ev.fileSaved pa ct := by
  induction l with
  | nil => simp [savedEvents] at h
  | cons x rest ih =>
    cases x with
    | error e => exact ih (by simpa [savedEvents] using h)
    | ok v =>
      rcases List.mem_cons.mp (by simpa [savedEvents] using h) with h1 | h1
      · exact ⟨v.1, v.2, h1⟩
      · exact ih h1

/-- If every route's task succeeds, `routeTask`'s value carries the
target path computed from `outputDir` and the route. -/
theorem routeTask_ok_target (env : Prerenderer.InitEnv)
    (p : Prerenderer.Inst) (r : String) (v : String × String)
    (h : Prerenderer.routeTask env p r = .ok v) :
    v.1 = targetPath p.outputDir r := by
  unfold Prerenderer.routeTask at h
  split at h
  · exact absurd h (by simp)
  · split at h
    · exact absurd h (by simp)
    · simp only [Except.ok.injEq] at h
      rw [← h]

/-- C5: if one route's task rejects (markup fetch or file save) while
every other route's task resolves, the whole `init()` call rejects
with that task's error, and the teardown steps after the join —
`browser.close()` and `server.destroy()` — are not executed. -/
theorem C5_single_failure_no_teardown (env : Prerenderer.InitEnv)
    (p : Prerenderer.Inst) (r : String) (e : JsErr)
    (hr : r ∈ p.routes)
    (hfail : Prerenderer.routeTask env p r = .error e)
    (hothers : ∀ r' ∈ p.routes, r' ≠ r →
      ∃ v, Prerenderer.routeTask env p r' = .ok v) :
    (Prerenderer.init env p).1 = .error e ∧
    Prerenderer.Ev.browserClose ∉ (Prerenderer.init env p).2 ∧
    Prerenderer.Ev.serverStop ∉ (Prerenderer.init env p).2 := by
  have hjoin : joinAll (p.routes.map (Prerenderer.routeTask env p))
      = .error e := by
    apply joinAll_single_error
    · exact List.mem_map.mpr ⟨r, hr, hfail⟩
    · intro x hx
      obtain ⟨r', hr', hx'⟩ := List.mem_map.mp hx
      by_cases hrr : r' = r
      · subst hrr
        left
        rw [← hx', hfail]
      · right
        obtain ⟨v, hv⟩ := hothers r' hr' hrr
        exact ⟨v, by rw [← hx', hv]⟩
  have hinit : Prerenderer.init env p
      = (.error e,
         savedEvents (p.routes.map (Prerenderer.routeTask env p))) := by
    unfold Prerenderer.init
    rw [hjoin]
  refine ⟨by rw [hinit], ?_, ?_⟩ <;>
    · rw [hinit]
      intro hmem
      obtain ⟨pa, ct, hev⟩ := savedEvents_mem _ _ hmem
      exact absurd hev (by simp)

/-- Witness for C5: one route whose navigation times out, with no
other routes; `init` rejects with the timeout error and no teardown
event is emitted. -/
theorem C5_single_failure_no_teardown_witness :
    (Prerenderer.init
      { pageOf := fun _ =>
          { goto := fun _ _ => .error (.timeoutError "Navigation timeout"),
            waitForSelector := fun _ _ => .ok (),
            content := "<html></html>" },
        save := fun _ _ => .ok () }
      { staticDir := "/site", routes := ["/"], outputDir := "/out",
        waitForElement := none, useHttps := true, supressOutput := true,
        stopOnPageError := false, port := 3000 }).1
      = .error (.timeoutError "Navigation timeout") :=
  (C5_single_failure_no_teardown
    { pageOf := fun _ =>
        { goto := fun _ _ => .error (.timeoutError "Navigation timeout"),
          waitForSelector := fun _ _ => .ok (),
          content := "<html></html>" },
      save := fun _ _ => .ok () }
    { staticDir := "/site", routes := ["/"], outputDir := "/out",
      waitForElement := none, useHttps := true, supressOutput := true,
      stopOnPageError := false, port := 3000 }
    "/" (.timeoutError "Navigation timeout") (by simp) rfl
    (fun r' hr' hne => absurd (by simpa using hr') hne)).1

/-- C6: when every route task settles successfully, `init` closes the
browser and then stops the server — both strictly after all the
tasks' file saves, browser first — and only then resolves with
`true`. -/
theorem C6_teardown_order (env : Prerenderer.InitEnv)
    (p : Prerenderer.Inst)
    (h : ∀ r ∈ p.routes, ∃ v, Prerenderer.routeTask env p r = .ok v) :
    (Prerenderer.init env p).1 = .ok true ∧
    ∃ saves,
      (Prerenderer.init env p).2
        = saves ++ [Prerenderer.Ev.browserClose, Prerenderer.Ev.serverStop] ∧
      ∀ ev ∈ saves, ∃ pa ct, ev = Prerenderer.Ev.fileSaved pa ct := by
  obtain ⟨vs, hvs⟩ :=
    joinAll_all_ok (p.routes.map (Prerenderer.routeTask env p))
      (by
        intro x hx
        obtain ⟨r, hr, hx'⟩ := List.mem_map.mp hx
        obtain ⟨v, hv⟩ := h r hr
        exact ⟨v, by rw [← hx', hv]⟩)
  have hinit : Prerenderer.init env p
      = (.ok true,
         vs.map (fun v => Prerenderer.Ev.fileSaved v.1 v.2)
           ++ [Prerenderer.Ev.browserClose, Prerenderer.Ev.serverStop]) := by
    unfold Prerenderer.init
    rw [hvs]
  refine ⟨by rw [hinit], vs.map (fun v => Prerenderer.Ev.fileSaved v.1 v.2),
    by rw [hinit], ?_⟩
  intro ev hev
  obtain ⟨v, _, hv⟩ := List.mem_map.mp hev
  exact ⟨v.1, v.2, hv.symm⟩

/-- Witness for C6: two successful routes; the trace is the two saves
followed by browser close then server stop, and `init` resolves with
`true`. -/
theorem C6_teardown_order_witness :
    (Prerenderer.init
      { pageOf := fun _ =>
          { goto := fun _ _ => .ok (),
            waitForSelector := fun _ _ => .ok (),
            content := "<html></html>" },
        save := fun _ _ => .ok () }
      { staticDir := "/site", routes := ["/", "/about"], outputDir := "/out",
        waitForElement := none, useHttps := true, supressOutput := true,
        stopOnPageError := false, port := 3000 }).1
      = .ok true :=
  (C6_teardown_order _ _
    (by
      intro r hr
      rcases (by simpa using hr : r = "/" ∨ r = "/about") with h | h <;>
        subst h <;> exact ⟨_, rfl⟩)).1

/-- C2: `init` normalizes each route to start with `'/'`, trims
exactly one trailing `'/'` from `outputDir`, and computes the target
as trimmed `outputDir` ++ normalized route ++ `"/index.html"`; for
the single route `"/"` with no `waitForElement`, the pass produces
exactly one file, at a path denoting `<outputDir>/index.html`. -/
theorem C2_target_paths (env : Prerenderer.InitEnv)
    (p : Prerenderer.Inst) (r o : String)
    (hroutes : p.routes = ["/"]) (hwait : p.waitForElement = none)
    (hok : ∃ v, Prerenderer.routeTask env p "/" = .ok v) :
    jsStartsWith (normalizeRoute r) "/" = true ∧
    (jsStartsWith r "/" = true → normalizeRoute r = r) ∧
    (jsStartsWith r "/" = false → normalizeRoute r = "/" ++ r) ∧
    (jsEndsWith o "/" = true → trimOutputDir o ++ "/" = o) ∧
    (jsEndsWith o "/" = false → trimOutputDir o = o) ∧
    targetPath o r = trimOutputDir o ++ normalizeRoute r ++ "/index.html" ∧
    (∃ ct, (Prerenderer.init env p).2
        = [Prerenderer.Ev.fileSaved (targetPath p.outputDir "/") ct,
           Prerenderer.Ev.browserClose, Prerenderer.Ev.serverStop]) ∧
    pathNormalize (targetPath p.outputDir "/")
      = pathNormalize (p.outputDir ++ "/index.html") := by
  obtain ⟨v, hv⟩ := hok
  have htarget := routeTask_ok_target env p "/" v hv
  have hjoin : joinAll (p.routes.map (Prerenderer.routeTask env p))
      = .ok [v] := by
    rw [hroutes]
    simp only [List.map_cons, List.map_nil]
    rw [hv]
    rfl
  have hinit : Prerenderer.init env p
      = (.ok true,
         [Prerenderer.Ev.fileSaved v.1 v.2,
          Prerenderer.Ev.browserClose, Prerenderer.Ev.serverStop]) := by
    unfold Prerenderer.init
    rw [hjoin]
    rfl
  refine ⟨jsStartsWith_normalizeRoute r, ?_, ?_,
    trimOutputDir_endsWith o, ?_, rfl, ⟨v.2, ?_⟩,
    pathNormalize_targetPath_root p.outputDir⟩
  · intro h
    unfold normalizeRoute
    rw [if_pos h]
  · intro h
    unfold normalizeRoute
    rw [if_neg (by simp [h])]
  · intro h
    unfold trimOutputDir
    rw [if_neg (by simp [h])]
  · rw [hinit, htarget]

/-- Witness for C2 at `outputDir = "/out"`: the target string for the
root route is literally `"/out//index.html"`, which posix-normalizes
to the same path as `"/out" ++ "/index.html"`. -/
theorem C2_target_paths_witness :
    pathNormalize (targetPath "/out" "/")
        = pathNormalize ("/out" ++ "/index.html") ∧
      targetPath "/out" "/" = "/out//index.html" :=
  ⟨(C2_target_paths
      { pageOf := fun _ =>
          { goto := fun _ _ => .ok (),
            waitForSelector := fun _ _ => .ok (),
            content := "<html></html>" },
        save := fun _ _ => .ok () }
      { staticDir := "/site", routes := ["/"], outputDir := "/out",
        waitForElement := none, useHttps := true, supressOutput := true,
        stopOnPageError := false, port := 3000 }
      "/" "/out" rfl rfl ⟨_, rfl⟩).2.2.2.2.2.2.2, rfl⟩

theorem buildUrl_https (port : Nat) (route : String) :
    Prerenderer.buildUrl true port route
      = "https://localhost:" ++ toString port ++ route := by
  unfold Prerenderer.buildUrl
  rw [if_pos rfl]
  rw [show ("http" ++ "s" ++ "://localhost:" : String)
      = "https://localhost:" from rfl]

theorem buildUrl_http (port : Nat) (route : String) :
    Prerenderer.buildUrl false port route
      = "http://localhost:" ++ toString port ++ route := by
  unfold Prerenderer.buildUrl
  rw [if_neg (by simp)]
  rw [show ("http" ++ "" ++ "://localhost:" : String)
      = "http://localhost:" from rfl]

/-- C3: `getMarkup(route)` navigates its fresh page to
`http(s)://localhost:<port><route>` — `https` exactly when `useHttps`
— with the fixed 60000 ms timeout; it waits for a selector, again
with a 60000 ms timeout, exactly when `waitForElement` is configured;
a rejecting selector wait (e.g. a timeout for a selector that never
appears) rejects the route's task with that error rather than
returning markup; otherwise the full serialized document markup is
returned. -/
theorem C3_getMarkup (env : Prerenderer.PageEnv)
    (p : Prerenderer.Inst) (route : String) :
    Prerenderer.PageEv.goto (Prerenderer.buildUrl p.useHttps p.port route)
        60000 ∈ (Prerenderer.getMarkup env p route).2 ∧
    (∀ u t, Prerenderer.PageEv.goto u t
        ∈ (Prerenderer.getMarkup env p route).2 →
      u = Prerenderer.buildUrl p.useHttps p.port route ∧ t = 60000) ∧
    (p.useHttps = true → Prerenderer.buildUrl p.useHttps p.port route
        = "https://localhost:" ++ toString p.port ++ route) ∧
    (p.useHttps = false → Prerenderer.buildUrl p.useHttps p.port route
        = "http://localhost:" ++ toString p.port ++ route) ∧
    (∀ s t, Prerenderer.PageEv.waitForSelector s t
        ∈ (Prerenderer.getMarkup env p route).2 →
      p.waitForElement = some s ∧ t = 60000) ∧
    (env.goto (Prerenderer.buildUrl p.useHttps p.port route) 60000
        = .ok () →
      ((∃ s t, Prerenderer.PageEv.waitForSelector s t
          ∈ (Prerenderer.getMarkup env p route).2)
        ↔ p.waitForElement ≠ none) ∧
      (∀ sel e, p.waitForElement = some sel →
        env.waitForSelector sel 60000 = .error e →
        (Prerenderer.getMarkup env p route).1 = .error e) ∧
      (p.waitForElement = none →
        (Prerenderer.getMarkup env p route).1 = .ok env.content) ∧
      (∀ sel, p.waitForElement = some sel →
        env.waitForSelector sel 60000 = .ok () →
        (Prerenderer.getMarkup env p route).1 = .ok env.content)) := by
  have hhttps : p.useHttps = true →
      Prerenderer.buildUrl p.useHttps p.port route
        = "https://localhost:" ++ toString p.port ++ route := by
    intro h
    rw [h]
    exact buildUrl_https p.port route
  have hhttp : p.useHttps = false →
      Prerenderer.buildUrl p.useHttps p.port route
        = "http://localhost:" ++ toString p.port ++ route := by
    intro h
    rw [h]
    exact buildUrl_http p.port route
  cases hg : env.goto (Prerenderer.buildUrl p.useHttps p.port route)
      60000 with
  | error e0 =>
    have hform : Prerenderer.getMarkup env p route
        = (.error e0,
           [Prerenderer.PageEv.newPage, Prerenderer.PageEv.onError,
            Prerenderer.PageEv.onPageError,
            Prerenderer.PageEv.goto
              (Prerenderer.buildUrl p.useHttps p.port route) 60000]) := by
      unfold Prerenderer.getMarkup
      rw [hg]
    refine ⟨by simp [hform], ?_, hhttps, hhttp, ?_, ?_⟩
    · intro u t h
      simp [hform] at h
      exact ⟨h.1, h.2⟩
    · intro s t h
      simp [hform] at h
    · intro hok
      exact absurd hok (by simp)
  | ok u =>
    cases u
    cases hw : p.waitForElement with
    | none =>
      have hform : Prerenderer.getMarkup env p route
          = (.ok env.content,
             [Prerenderer.PageEv.newPage, Prerenderer.PageEv.onError,
              Prerenderer.PageEv.onPageError,
              Prerenderer.PageEv.goto
                (Prerenderer.buildUrl p.useHttps p.port route) 60000,
              Prerenderer.PageEv.content]) := by
        unfold Prerenderer.getMarkup
        rw [hg, hw]
      refine ⟨by simp [hform], ?_, hhttps, hhttp, ?_, ?_⟩
      · intro u t h
        simp [hform] at h
        exact ⟨h.1, h.2⟩
      · intro s t h
        simp [hform] at h
      · intro _
        refine ⟨?_, ?_, ?_, ?_⟩
        · constructor
          · rintro ⟨s, t, hmem⟩
            simp [hform] at hmem
          · intro hne
            exact absurd rfl hne
        · intro sel e hsel
          exact absurd hsel (by simp)
        · intro _
          simp [hform]
        · intro sel hsel
          exact absurd hsel (by simp)
    | some sel =>
      cases hws : env.waitForSelector sel 60000 with
      | error e1 =>
        have hform : Prerenderer.getMarkup env p route
            = (.error e1,
               [Prerenderer.PageEv.newPage, Prerenderer.PageEv.onError,
                Prerenderer.PageEv.onPageError,
                Prerenderer.PageEv.goto
                  (Prerenderer.buildUrl p.useHttps p.port route) 60000,
                Prerenderer.PageEv.waitForSelector sel 60000]) := by
          unfold Prerenderer.getMarkup
          simp only [hg, hw, hws]
        refine ⟨by simp [hform], ?_, hhttps, hhttp, ?_, ?_⟩
        · intro u t h
          simp [hform] at h
          exact ⟨h.1, h.2⟩
        · intro s t h
          simp [hform] at h
          exact ⟨by rw [h.1], h.2⟩
        · intro _
          refine ⟨?_, ?_, ?_, ?_⟩
          · constructor
            · intro _
              simp
            · intro _
              exact ⟨sel, 60000, by simp [hform]⟩
          · intro sel' e' hsel' hwait
            have hsel'' : sel' = sel := by
              injection hsel' with h
              exact h.symm
            subst hsel''
            rw [hws] at hwait
            have : e' = e1 := by
              injection hwait with h
              exact h.symm
            subst this
            simp [hform]
          · intro hnone
            exact absurd hnone (by simp)
          · intro sel' hsel' hwok
            have hsel'' : sel' = sel := by
              injection hsel' with h
              exact h.symm
            subst hsel''
            rw [hws] at hwok
            exact absurd hwok (by simp)
      | ok u2 =>
        cases u2
        have hform : Prerenderer.getMarkup env p route
            = (.ok env.content,
               [Prerenderer.PageEv.newPage, Prerenderer.PageEv.onError,
                Prerenderer.PageEv.onPageError,
                Prerenderer.PageEv.goto
                  (Prerenderer.buildUrl p.useHttps p.port route) 60000,
                Prerenderer.PageEv.waitForSelector sel 60000,
                Prerenderer.PageEv.content]) := by
          unfold Prerenderer.getMarkup
          simp only [hg, hw, hws]
        refine ⟨by simp [hform], ?_, hhttps, hhttp, ?_, ?_⟩
        · intro u t h
          simp [hform] at h
          exact ⟨h.1, h.2⟩
        · intro s t h
          simp [hform] at h
          exact ⟨by rw [h.1], h.2⟩
        · intro _
          refine ⟨?_, ?_, ?_, ?_⟩
          · constructor
            · intro _
              simp
            · intro _
              exact ⟨sel, 60000, by simp [hform]⟩
          · intro sel' e' hsel' hwait
            have hsel'' : sel' = sel := by
              injection hsel' with h
              exact h.symm
            subst hsel''
            rw [hws] at hwait
            exact absurd hwait (by simp)
          · intro hnone
            exact absurd hnone (by simp)
          · intro sel' hsel' _
            have hsel'' : sel' = sel := by
              injection hsel' with h
              exact h.symm
            subst hsel''
            simp [hform]

/-- Witness for C3: a page whose selector wait always times out, an
instance with a configured `waitForElement`; `getMarkup` rejects with
the timeout error (applying the selector-wait conjunct at the
concrete input, all hypotheses discharged by `rfl`). -/
theorem C3_getMarkup_witness :
    (Prerenderer.getMarkup
      { goto := fun _ _ => .ok (),
        waitForSelector := fun _ _ =>
          .error (.timeoutError "waiting for selector `#app` failed"),
        content := "<html></html>" }
      { staticDir := "/site", routes := ["/"], outputDir := "/out",
        waitForElement := some "#app", useHttps := false,
        supressOutput := true, stopOnPageError := false,
        port := 3000 } "/").1
      = .error (.timeoutError "waiting for selector `#app` failed") :=
  ((C3_getMarkup
    { goto := fun _ _ => .ok (),
      waitForSelector := fun _ _ =>
        .error (.timeoutError "waiting for selector `#app` failed"),
      content := "<html></html>" }
    { staticDir := "/site", routes := ["/"], outputDir := "/out",
      waitForElement := some "#app", useHttps := false,
      supressOutput := true, stopOnPageError := false,
      port := 3000 } "/").2.2.2.2.2 rfl).2.1 "#app"
    (.timeoutError "waiting for selector `#app` failed") rfl rfl

/-- Both page listeners are attached on every call to `getMarkup`,
whatever the configuration: `page.on('error', ...)` and
`page.on('pageerror', ...)` run unconditionally before navigation. -/
theorem getMarkup_listeners_attached (env : Prerenderer.PageEnv)
    (p : Prerenderer.Inst) (route : String) :
    Prerenderer.PageEv.onError ∈ (Prerenderer.getMarkup env p route).2 ∧
    Prerenderer.PageEv.onPageError
      ∈ (Prerenderer.getMarkup env p route).2 := by
  unfold Prerenderer.getMarkup
  cases hg : env.goto (Prerenderer.buildUrl p.useHttps p.port route)
      60000 with
  | error e => simp [hg]
  | ok u =>
    cases hw : p.waitForElement with
    | none => simp [hg, hw]
    | some sel =>
      cases hws : env.waitForSelector sel 60000 with
      | error e => simp [hg, hw, hws]
      | ok u2 => simp [hg, hw, hws]

/-- C4 counterexample: with `stopOnPageError = false` (error
reporting not opted into) both listeners are still attached, so
attachment is not conditional on the flag; and with
`stopOnPageError = true` a page script error makes the handler
rethrow instead of merely logging. -/
theorem C4_counterexample :
    Prerenderer.PageEv.onError ∈
      (Prerenderer.getMarkup
        { goto := fun _ _ => .ok (),
          waitForSelector := fun _ _ => .ok (),
          content := "<html></html>" }
        { staticDir := "/site", routes := ["/"], outputDir := "/out",
          waitForElement := none, useHttps := false, supressOutput := true,
          stopOnPageError := false, port := 3000 } "/").2 ∧
    Prerenderer.PageEv.onPageError ∈
      (Prerenderer.getMarkup
        { goto := fun _ _ => .ok (),
          waitForSelector := fun _ _ => .ok (),
          content := "<html></html>" }
        { staticDir := "/site", routes := ["/"], outputDir := "/out",
          waitForElement := none, useHttps := false, supressOutput := true,
          stopOnPageError := false, port := 3000 } "/").2 ∧
    Prerenderer.pageErrorHandler
      { staticDir := "/site", routes := ["/"], outputDir := "/out",
        waitForElement := none, useHttps := false, supressOutput := true,
        stopOnPageError := true, port := 3000 } "boom"
      = .error (.error "boom") := by
  refine ⟨?_, ?_, rfl⟩ <;> simp [Prerenderer.getMarkup]

/-- C4 amended: the `'error'` and `'pageerror'` listeners are
attached unconditionally for every route's page; when
`stopOnPageError` is `false` a page script error is only logged, with
the hint that it may be the cause of a `waitForElement` timeout, and
does not abort the render; when `stopOnPageError` is `true` the
handler rethrows the page's error. -/
theorem C4_listeners_unconditional_handler_flag
    (env : Prerenderer.PageEnv) (p : Prerenderer.Inst)
    (route err : String) :
    Prerenderer.PageEv.onError ∈ (Prerenderer.getMarkup env p route).2 ∧
    Prerenderer.PageEv.onPageError
      ∈ (Prerenderer.getMarkup env p route).2 ∧
    (p.stopOnPageError = false →
      Prerenderer.pageErrorHandler p err
        = .ok ("Page error: " ++ err
            ++ "If this prevents the `waitForElement` element "
            ++ Prerenderer.waitForElementText p
            ++ " from loading, the prerender will timeout.") ∧
      Prerenderer.errorHandler p err
        = .ok ("Error: " ++ err
            ++ "If this prevents the `waitForElement` element "
            ++ Prerenderer.waitForElementText p
            ++ " from loading, the prerender will timeout.")) ∧
    (p.stopOnPageError = true →
      Prerenderer.pageErrorHandler p err = .error (.error err) ∧
      Prerenderer.errorHandler p err = .error (.error err)) := by
  obtain ⟨h1, h2⟩ := getMarkup_listeners_attached env p route
  refine ⟨h1, h2, ?_, ?_⟩
  · intro h
    constructor
    · unfold Prerenderer.pageErrorHandler
      rw [if_neg (by simp [h])]
    · unfold Prerenderer.errorHandler
      rw [if_neg (by simp [h])]
  · intro h
    constructor
    · unfold Prerenderer.pageErrorHandler
      rw [if_pos h]
    · unfold Prerenderer.errorHandler
      rw [if_pos h]

/-- Witness for the amended C4: with the flag off, the pageerror
handler only logs (with the timeout hint interpolating `null`). -/
theorem C4_listeners_unconditional_handler_flag_witness :
    Prerenderer.pageErrorHandler
      { staticDir := "/site", routes := ["/"], outputDir := "/out",
        waitForElement := none, useHttps := false, supressOutput := true,
        stopOnPageError := false, port := 3000 } "boom"
      = .ok ("Page error: " ++ "boom"
          ++ "If this prevents the `waitForElement` element "
          ++ Prerenderer.waitForElementText
              { staticDir := "/site", routes := ["/"], outputDir := "/out",
                waitForElement := none, useHttps := false,
                supressOutput := true, stopOnPageError := false,
                port := 3000 }
          ++ " from loading, the prerender will timeout.") :=
  ((C4_listeners_unconditional_handler_flag
    { goto := fun _ _ => .ok (),
      waitForSelector := fun _ _ => .ok (),
      content := "<html></html>" }
    { staticDir := "/site", routes := ["/"], outputDir := "/out",
      waitForElement := none, useHttps := false, supressOutput := true,
      stopOnPageError := false, port := 3000 }
    "/" "boom").2.2.1 rfl).1

/-! ## The filesystem and `saveFile` (`index.js`) -/

/-- A filesystem entry as `fs.lstatSync(..).isFile()` distinguishes
them: a regular file with its content, a directory, or any other
entry kind (symlink, fifo, ...) for which `isFile()` is `false`. -/
inductive Entry where
  | file (content : String)
  | dir
  | other
  deriving DecidableEq, Repr

/-- The filesystem, as an association list from paths to entries
(first binding wins). -/
abbrev FS := List (String × Entry)

def fsLookup : FS → String → Option Entry
  | [], _ => none
  | (q, e) :: rest, pa => if q = pa then some e else fsLookup rest pa

/-- `fs.existsSync(pa)`. -/
def fsExists (fs : FS) (pa : String) : Bool := (fsLookup fs pa).isSome

/-- Erase every binding of a path from the association list: the
bookkeeping shared by `fsSet` (shadowing) and a successful unlink.
This is not `unlinkSync` itself — see `fsUnlink`. -/
def fsErase : FS → String → FS
  | [], _ => []
  | (q, e) :: rest, pa =>
    if q = pa then fsErase rest pa else (q, e) :: fsErase rest pa

/-- `fs.writeFileSync` / entry creation: bind `pa` to `e`, shadowing
any previous binding. -/
def fsSet (fs : FS) (pa : String) (e : Entry) : FS :=
  (pa, e) :: fsErase fs pa

/-- `lstatSync(pa).isFile()` on a looked-up entry. -/
def entryIsFile : Option Entry → Bool
  | some (.file _) => true
  | _ => false

/-- `fs.unlinkSync(pa)`: removes a non-directory entry; a directory
cannot be unlinked (`EISDIR` on Linux), and a missing entry is
`ENOENT`. -/
def fsUnlink (fs : FS) (pa : String) : Except JsErr FS :=
  match fsLookup fs pa with
  | none =>
    .error (.error
      ("ENOENT: no such file or directory, unlink '" ++ pa ++ "'"))
  | some .dir =>
    .error (.error
      ("EISDIR: illegal operation on a directory, unlink '" ++ pa ++ "'"))
  | some _ => .ok (fsErase fs pa)

/-- Everything of the path before its last `'/'` (empty if there is
no `'/'`): the char-level computation of
`filePath.split('/')` → `pop()` → `join('/')` from `saveFile`. -/
def dropLastSegment : List Char → List Char
  | [] => []
  | c :: rest => if '/' ∈ rest then c :: dropLastSegment rest else []

/-- The `dirPath` computed by `saveFile`. -/
def dirName (pa : String) : String := ⟨dropLastSegment pa.data⟩

theorem dropLastSegment_length_lt (l : List Char) (h : l ≠ []) :
    (dropLastSegment l).length < l.length := by
  induction l with
  | nil => exact absurd rfl h
  | cons c rest ih =>
    unfold dropLastSegment
    by_cases hs : '/' ∈ rest
    · rw [if_pos hs]
      have hrest : rest ≠ [] := by
        intro he
        rw [he] at hs
        simp at hs
      simpa using ih hrest
    · rw [if_neg hs]
      simp

theorem dirName_data_length_lt (pa : String) (h : pa ≠ "") :
    (dirName pa).data.length < pa.data.length := by
  apply dropLastSegment_length_lt
  intro h0
  apply h
  apply String.ext
  rw [h0]

theorem dirName_ne_of_ne (pa : String) (h : dirName pa ≠ pa) : pa ≠ "" := by
  intro h0
  subst h0
  exact h rfl

theorem fsLookup_cons (x1 : String) (x2 : Entry) (rest : FS)
    (q : String) :
    fsLookup ((x1, x2) :: rest) q
      = if x1 = q then some x2 else fsLookup rest q := rfl

theorem fsErase_cons (x1 : String) (x2 : Entry) (rest : FS)
    (pa : String) :
    fsErase ((x1, x2) :: rest) pa
      = if x1 = pa then fsErase rest pa
        else (x1, x2) :: fsErase rest pa := rfl

theorem fsLookup_fsErase_ne (fs : FS) (pa q : String) (h : q ≠ pa) :
    fsLookup (fsErase fs pa) q = fsLookup fs q := by
  induction fs with
  | nil => rfl
  | cons x rest ih =>
    cases x with
    | mk x1 x2 =>
      rw [fsErase_cons, fsLookup_cons]
      by_cases hx : x1 = pa
      · rw [if_pos hx, ih, if_neg (fun he => h (he.symm.trans hx))]
      · rw [if_neg hx, fsLookup_cons]
        by_cases hq : x1 = q
        · rw [if_pos hq, if_pos hq]
        · rw [if_neg hq, if_neg hq]
          exact ih

theorem fsLookup_fsSet_self (fs : FS) (pa : String) (e : Entry) :
    fsLookup (fsSet fs pa e) pa = some e := by
  show fsLookup ((pa, e) :: fsErase fs pa) pa = some e
  rw [fsLookup_cons, if_pos rfl]

theorem fsLookup_fsSet_ne (fs : FS) (pa q : String) (e : Entry)
    (h : q ≠ pa) : fsLookup (fsSet fs pa e) q = fsLookup fs q := by
  show fsLookup ((pa, e) :: fsErase fs pa) q = _
  rw [fsLookup_cons, if_neg (fun he => h he.symm)]
  exact fsLookup_fsErase_ne fs pa q h

/-- One directory-creation step of `mkdirSync(..., {recursive: true})`
at the target itself: an existing directory is fine, an existing
non-directory is `EEXIST`. -/
def mkdirCreateHere (fs : FS) (pa : String) : Except JsErr FS :=
  match fsLookup fs pa with
  | none => .ok (fsSet fs pa .dir)
  | some .dir => .ok fs
  | some _ =>
    .error (.error ("EEXIST: file already exists, mkdir '" ++ pa ++ "'"))

/-- `fs.mkdirSync(pa, {recursive: true})`: ensure the ancestor chain —
an ancestor that exists must be a directory, a file ancestor is
`ENOTDIR`, missing ancestors are created — then create `pa` itself. -/
def mkdirRecursive (fs : FS) (pa : String) : Except JsErr FS :=
  if h : dirName pa = "" then mkdirCreateHere fs pa
  else
    match fsLookup fs (dirName pa) with
    | some .dir => mkdirCreateHere fs pa
    | some _ =>
      .error (.error ("ENOTDIR: not a directory, mkdir '" ++ pa ++ "'"))
    | none =>
      match mkdirRecursive fs (dirName pa) with
      | .error e => .error e
      | .ok fs2 => mkdirCreateHere fs2 pa
termination_by pa.data.length
decreasing_by
  have hne : pa ≠ "" := by
    intro h0
    apply h
    rw [h0]
    rfl
  exact dirName_data_length_lt pa hne

theorem mkdirCreateHere_frame (fs : FS) (pa q : String) (fs' : FS)
    (hq : q ≠ pa) (hok : mkdirCreateHere fs pa = .ok fs') :
    fsLookup fs' q = fsLookup fs q := by
  unfold mkdirCreateHere at hok
  cases hl : fsLookup fs pa with
  | none =>
    rw [hl] at hok
    injection hok with h
    rw [← h]
    exact fsLookup_fsSet_ne fs pa q .dir hq
  | some ent =>
    cases ent with
    | file c =>
      rw [hl] at hok
      exact absurd hok (by simp)
    | dir =>
      rw [hl] at hok
      injection hok with h
      rw [← h]
    | other =>
      rw [hl] at hok
      exact absurd hok (by simp)

/-- A successful `mkdirRecursive fs pa` only touches `pa` and its
(strictly shorter) ancestors: any strictly longer path is
unchanged. -/
theorem mkdirRecursiveFrameAux :
    ∀ (n : Nat) (fs : FS) (pa q : String) (fs' : FS),
      pa.data.length ≤ n → pa.data.length < q.data.length →
      mkdirRecursive fs pa = .ok fs' →
      fsLookup fs' q = fsLookup fs q := by
  intro n
  induction n with
  | zero =>
    intro fs pa q fs' hle hlt hok
    have hqne : q ≠ pa := by
      intro he
      rw [he] at hlt
      exact absurd hlt (lt_irrefl _)
    have hpa : pa = "" := by
      apply String.ext
      exact List.eq_nil_of_length_eq_zero (Nat.le_zero.mp hle)
    subst hpa
    unfold mkdirRecursive at hok
    split at hok
    · exact mkdirCreateHere_frame fs "" q fs' hqne hok
    · rename_i hguard
      exact absurd rfl hguard
  | succ n ih =>
    intro fs pa q fs' hle hlt hok
    have hqne : q ≠ pa := by
      intro he
      rw [he] at hlt
      exact absurd hlt (lt_irrefl _)
    unfold mkdirRecursive at hok
    split at hok
    · exact mkdirCreateHere_frame fs pa q fs' hqne hok
    · rename_i hguard
      have hpne : pa ≠ "" := by
        intro h0
        apply hguard
        rw [h0]
        rfl
      have hlen := dirName_data_length_lt pa hpne
      split at hok
      · exact mkdirCreateHere_frame fs pa q fs' hqne hok
      · exact absurd hok (by simp)
      · cases hmk : mkdirRecursive fs (dirName pa) with
        | error e =>
          simp only [hmk] at hok
          exact absurd hok (by simp)
        | ok fs2 =>
          simp only [hmk] at hok
          have h1 : fsLookup fs2 q = fsLookup fs q :=
            ih fs (dirName pa) q fs2
              (Nat.lt_succ_iff.mp (lt_of_lt_of_le hlen hle))
              (lt_trans hlen hlt) hmk
          have h2 : fsLookup fs' q = fsLookup fs2 q :=
            mkdirCreateHere_frame fs2 pa q fs' hqne hok
          rw [h2, h1]

theorem mkdirRecursive_lookup_frame (fs : FS) (pa q : String)
    (fs' : FS) (h : pa.data.length < q.data.length)
    (hok : mkdirRecursive fs pa = .ok fs') :
    fsLookup fs' q = fsLookup fs q :=
  mkdirRecursiveFrameAux pa.data.length fs pa q fs' le_rfl h hok

/-- A successful `mkdirRecursive` creates the requested directory
when it was missing. -/
theorem mkdirRecursive_lookup_self (fs : FS) (pa : String) (fs' : FS)
    (hmiss : fsExists fs pa = false)
    (hok : mkdirRecursive fs pa = .ok fs') :
    fsLookup fs' pa = some .dir := by
  have hl : fsLookup fs pa = none := by
    unfold fsExists at hmiss
    cases h : fsLookup fs pa with
    | none => rfl
    | some ent =>
      rw [h] at hmiss
      simp at hmiss
  unfold mkdirRecursive at hok
  split at hok
  · unfold mkdirCreateHere at hok
    rw [hl] at hok
    injection hok with h
    rw [← h]
    exact fsLookup_fsSet_self fs pa .dir
  · rename_i hguard
    have hpne : pa ≠ "" := by
      intro h0
      apply hguard
      rw [h0]
      rfl
    have hlen := dirName_data_length_lt pa hpne
    split at hok
    · unfold mkdirCreateHere at hok
      rw [hl] at hok
      injection hok with h
      rw [← h]
      exact fsLookup_fsSet_self fs pa .dir
    · exact absurd hok (by simp)
    · cases hmk : mkdirRecursive fs (dirName pa) with
      | error e =>
        simp only [hmk] at hok
        exact absurd hok (by simp)
      | ok fs2 =>
        simp only [hmk] at hok
        have hfr : fsLookup fs2 pa = fsLookup fs pa :=
          mkdirRecursive_lookup_frame fs (dirName pa) pa fs2 hlen hmk
        unfold mkdirCreateHere at hok
        rw [hfr, hl] at hok
        injection hok with h
        rw [← h]
        exact fsLookup_fsSet_self fs2 pa .dir

/-- Filesystem calls `saveFile` makes, in order. -/
inductive FsOp where
  | mkdirRecursiveOp (dir : String)
  | unlink (pa : String)
  | write (pa content : String)
  deriving DecidableEq, Repr

/-- `saveFile`, first statement block: compute `dirPath` from the
split/pop/join of `filePath` and `mkdirSync(dirPath, {recursive:
true})` it when `existsSync(dirPath)` is false. -/
def Prerenderer.saveFileDirStep (fs : FS) (filePath : String) :
    Except JsErr FS × List FsOp :=
  if fsExists fs (dirName filePath) = true then (.ok fs, [])
  else (mkdirRecursive fs (dirName filePath),
        [FsOp.mkdirRecursiveOp (dirName filePath)])

/-- `saveFile`, second statement: `unlinkSync(filePath)` when an
entry exists there and `lstatSync(filePath).isFile()` is false. -/
def Prerenderer.saveFileUnlinkStep (fs : FS) (filePath : String) :
    Except JsErr FS × List FsOp :=
  if fsExists fs filePath = true
      ∧ entryIsFile (fsLookup fs filePath) = false then
    (fsUnlink fs filePath, [FsOp.unlink filePath])
  else (.ok fs, [])

/-- `saveFile(fileContent, filePath)` from `index.js`: ensure the
parent directory, attempt to unlink a non-file entry at the target,
then `writeFileSync(filePath, fileContent)`.  Each step can throw
(the thrown error propagates out of `saveFile` and the following
steps never run); the result is paired with the ordered list of
filesystem calls that were made. -/
def Prerenderer.saveFile (fs : FS) (fileContent filePath : String) :
    Except JsErr FS × List FsOp :=
  match (Prerenderer.saveFileDirStep fs filePath).1 with
  | .error e => (.error e, (Prerenderer.saveFileDirStep fs filePath).2)
  | .ok fs1 =>
    match (Prerenderer.saveFileUnlinkStep fs1 filePath).1 with
    | .error e =>
      (.error e,
       (Prerenderer.saveFileDirStep fs filePath).2
         ++ (Prerenderer.saveFileUnlinkStep fs1 filePath).2)
    | .ok fs2 =>
      (.ok (fsSet fs2 filePath (.file fileContent)),
       (Prerenderer.saveFileDirStep fs filePath).2
         ++ (Prerenderer.saveFileUnlinkStep fs1 filePath).2
         ++ [FsOp.write filePath fileContent])

/-- C7 counterexample: with a directory at the target path (the
claim's own example of a non-file entry), `unlinkSync` throws
`EISDIR` — the entry is not removed, nothing is written, and
`saveFile` propagates the error instead of leaving the content at the
path. -/
theorem C7_counterexample :
    (Prerenderer.saveFile
        [("/out", Entry.dir), ("/out/index.html", Entry.dir)]
        "<html></html>" "/out/index.html").1
      = .error (.error
          "EISDIR: illegal operation on a directory, unlink '/out/index.html'") ∧
    FsOp.write "/out/index.html" "<html></html>"
      ∉ (Prerenderer.saveFile
          [("/out", Entry.dir), ("/out/index.html", Entry.dir)]
          "<html></html>" "/out/index.html").2 := by
  constructor
  · rfl
  · decide

/-- C7 amended: `saveFile(content, path)` creates the missing parent
directory of `path`; when a non-file entry sits at `path` an unlink
is attempted before the write — it removes a non-directory entry
(e.g. a symlink) and the write then stores the content, but for a
directory `unlinkSync` throws `EISDIR` and nothing is written; an
existing regular file is overwritten without any unlink; whenever
`saveFile` returns without throwing, the write was its final
operation and the file at `path` holds exactly the given content.
(The hypothesis excludes only the degenerate `path = ""`, whose
parent is itself.) -/
theorem C7_saveFile_attempted_behaviour (fs : FS) (ct pa : String)
    (hne : dirName pa ≠ pa) :
    (∀ fs', (Prerenderer.saveFile fs ct pa).1 = .ok fs' →
      fsLookup fs' pa = some (.file ct) ∧
      ∃ pre, (Prerenderer.saveFile fs ct pa).2
        = pre ++ [FsOp.write pa ct]) ∧
    (fsExists fs (dirName pa) = false →
      ∀ fs', (Prerenderer.saveFile fs ct pa).1 = .ok fs' →
        fsLookup fs' (dirName pa) = some .dir) ∧
    (fsExists fs (dirName pa) = true → fsLookup fs pa = some .other →
      (Prerenderer.saveFile fs ct pa).2
        = [FsOp.unlink pa, FsOp.write pa ct] ∧
      ∃ fs', (Prerenderer.saveFile fs ct pa).1 = .ok fs' ∧
        fsLookup fs' pa = some (.file ct)) ∧
    (fsExists fs (dirName pa) = true → fsLookup fs pa = some .dir →
      (Prerenderer.saveFile fs ct pa).1
        = .error (.error
            ("EISDIR: illegal operation on a directory, unlink '"
              ++ pa ++ "'")) ∧
      (Prerenderer.saveFile fs ct pa).2 = [FsOp.unlink pa]) ∧
    (entryIsFile (fsLookup fs pa) = true →
      FsOp.unlink pa ∉ (Prerenderer.saveFile fs ct pa).2) := by
  have hpane : pa ≠ "" := dirName_ne_of_ne pa hne
  have hlen := dirName_data_length_lt pa hpane
  refine ⟨?_, ?_, ?_, ?_, ?_⟩
  · intro fs' hok
    cases hd : (Prerenderer.saveFileDirStep fs pa).1 with
    | error e =>
      have hform : (Prerenderer.saveFile fs ct pa).1 = .error e := by
        unfold Prerenderer.saveFile
        simp only [hd]
      rw [hform] at hok
      exact absurd hok (by simp)
    | ok fs1 =>
      cases hu : (Prerenderer.saveFileUnlinkStep fs1 pa).1 with
      | error e =>
        have hform : (Prerenderer.saveFile fs ct pa).1 = .error e := by
          unfold Prerenderer.saveFile
          simp only [hd, hu]
        rw [hform] at hok
        exact absurd hok (by simp)
      | ok fs2 =>
        have hform1 : (Prerenderer.saveFile fs ct pa).1
            = .ok (fsSet fs2 pa (.file ct)) := by
          unfold Prerenderer.saveFile
          simp only [hd, hu]
        have hform2 : (Prerenderer.saveFile fs ct pa).2
            = ((Prerenderer.saveFileDirStep fs pa).2
                ++ (Prerenderer.saveFileUnlinkStep fs1 pa).2)
              ++ [FsOp.write pa ct] := by
          unfold Prerenderer.saveFile
          simp only [hd, hu]
        rw [hform1] at hok
        injection hok with h
        rw [← h]
        exact ⟨fsLookup_fsSet_self _ pa _, ⟨_, hform2⟩⟩
  · intro hdir fs' hok
    have hd2 : (Prerenderer.saveFileDirStep fs pa).1
        = mkdirRecursive fs (dirName pa) := by
      unfold Prerenderer.saveFileDirStep
      rw [if_neg (by simp [hdir])]
    cases hmk : mkdirRecursive fs (dirName pa) with
    | error e =>
      have hform : (Prerenderer.saveFile fs ct pa).1 = .error e := by
        unfold Prerenderer.saveFile
        simp only [hd2, hmk]
      rw [hform] at hok
      exact absurd hok (by simp)
    | ok fs1 =>
      have hlook1 : fsLookup fs1 (dirName pa) = some .dir :=
        mkdirRecursive_lookup_self fs (dirName pa) fs1 hdir hmk
      cases hu : (Prerenderer.saveFileUnlinkStep fs1 pa).1 with
      | error e =>
        have hform : (Prerenderer.saveFile fs ct pa).1 = .error e := by
          unfold Prerenderer.saveFile
          simp only [hd2, hmk, hu]
        rw [hform] at hok
        exact absurd hok (by simp)
      | ok fs2 =>
        have hlook2 : fsLookup fs2 (dirName pa) = some .dir := by
          unfold Prerenderer.saveFileUnlinkStep at hu
          by_cases hc : fsExists fs1 pa = true
              ∧ entryIsFile (fsLookup fs1 pa) = false
          · rw [if_pos hc] at hu
            have hu' : fsUnlink fs1 pa = .ok fs2 := hu
            unfold fsUnlink at hu'
            cases hl : fsLookup fs1 pa with
            | none =>
              rw [hl] at hu'
              exact absurd hu' (by simp)
            | some ent =>
              cases ent with
              | file c =>
                rw [hl] at hu'
                injection hu' with h
                rw [← h, fsLookup_fsErase_ne fs1 pa (dirName pa) hne]
                exact hlook1
              | dir =>
                rw [hl] at hu'
                exact absurd hu' (by simp)
              | other =>
                rw [hl] at hu'
                injection hu' with h
                rw [← h, fsLookup_fsErase_ne fs1 pa (dirName pa) hne]
                exact hlook1
          · rw [if_neg hc] at hu
            have hu' : Except.ok (ε := JsErr) fs1 = .ok fs2 := hu
            injection hu' with h
            rw [← h]
            exact hlook1
        have hform1 : (Prerenderer.saveFile fs ct pa).1
            = .ok (fsSet fs2 pa (.file ct)) := by
          unfold Prerenderer.saveFile
          simp only [hd2, hmk, hu]
        rw [hform1] at hok
        injection hok with h
        rw [← h, fsLookup_fsSet_ne _ pa (dirName pa) (.file ct) hne]
        exact hlook2
  · intro hpar hother
    have hd2 : Prerenderer.saveFileDirStep fs pa = (.ok fs, []) := by
      unfold Prerenderer.saveFileDirStep
      rw [if_pos hpar]
    have hcond : fsExists fs pa = true
        ∧ entryIsFile (fsLookup fs pa) = false := by
      constructor
      · unfold fsExists
        rw [hother]
        rfl
      · rw [hother]
        rfl
    have hun : fsUnlink fs pa = .ok (fsErase fs pa) := by
      unfold fsUnlink
      rw [hother]
    have hu2 : Prerenderer.saveFileUnlinkStep fs pa
        = (.ok (fsErase fs pa), [FsOp.unlink pa]) := by
      unfold Prerenderer.saveFileUnlinkStep
      rw [if_pos hcond, hun]
    constructor
    · have hform : (Prerenderer.saveFile fs ct pa).2
          = ([] : List FsOp) ++ [FsOp.unlink pa] ++ [FsOp.write pa ct] := by
        unfold Prerenderer.saveFile
        simp only [hd2, hu2]
      rw [hform]
      rfl
    · refine ⟨fsSet (fsErase fs pa) pa (.file ct), ?_,
        fsLookup_fsSet_self _ pa _⟩
      unfold Prerenderer.saveFile
      simp only [hd2, hu2]
  · intro hpar hdirat
    have hd2 : Prerenderer.saveFileDirStep fs pa = (.ok fs, []) := by
      unfold Prerenderer.saveFileDirStep
      rw [if_pos hpar]
    have hcond : fsExists fs pa = true
        ∧ entryIsFile (fsLookup fs pa) = false := by
      constructor
      · unfold fsExists
        rw [hdirat]
        rfl
      · rw [hdirat]
        rfl
    have hun : fsUnlink fs pa = .error (.error
        ("EISDIR: illegal operation on a directory, unlink '"
          ++ pa ++ "'")) := by
      unfold fsUnlink
      rw [hdirat]
    have hu2 : Prerenderer.saveFileUnlinkStep fs pa
        = (.error (.error
            ("EISDIR: illegal operation on a directory, unlink '"
              ++ pa ++ "'")),
           [FsOp.unlink pa]) := by
      unfold Prerenderer.saveFileUnlinkStep
      rw [if_pos hcond, hun]
    constructor
    · unfold Prerenderer.saveFile
      simp only [hd2, hu2]
    · unfold Prerenderer.saveFile
      simp only [hd2, hu2]
      rfl
  · intro hfile
    by_cases hpar : fsExists fs (dirName pa) = true
    · have hd2 : Prerenderer.saveFileDirStep fs pa = (.ok fs, []) := by
        unfold Prerenderer.saveFileDirStep
        rw [if_pos hpar]
      have hcondF : ¬(fsExists fs pa = true
          ∧ entryIsFile (fsLookup fs pa) = false) := by
        intro hc
        rw [hfile] at hc
        exact absurd hc.2 (by simp)
      have hu2 : Prerenderer.saveFileUnlinkStep fs pa = (.ok fs, []) := by
        unfold Prerenderer.saveFileUnlinkStep
        rw [if_neg hcondF]
      have hform : (Prerenderer.saveFile fs ct pa).2
          = ([] : List FsOp) ++ [] ++ [FsOp.write pa ct] := by
        unfold Prerenderer.saveFile
        simp only [hd2, hu2]
      rw [hform]
      simp
    · have hd2 : Prerenderer.saveFileDirStep fs pa
          = (mkdirRecursive fs (dirName pa),
             [FsOp.mkdirRecursiveOp (dirName pa)]) := by
        unfold Prerenderer.saveFileDirStep
        rw [if_neg hpar]
      cases hmk : mkdirRecursive fs (dirName pa) with
      | error e =>
        have hform : (Prerenderer.saveFile fs ct pa).2
            = [FsOp.mkdirRecursiveOp (dirName pa)] := by
          unfold Prerenderer.saveFile
          simp only [hd2, hmk]
        rw [hform]
        simp
      | ok fs1 =>
        have hfr : fsLookup fs1 pa = fsLookup fs pa :=
          mkdirRecursive_lookup_frame fs (dirName pa) pa fs1 hlen hmk
        have hcondF : ¬(fsExists fs1 pa = true
            ∧ entryIsFile (fsLookup fs1 pa) = false) := by
          intro hc
          rw [hfr, hfile] at hc
          exact absurd hc.2 (by simp)
        have hu2 : Prerenderer.saveFileUnlinkStep fs1 pa
            = (.ok fs1, []) := by
          unfold Prerenderer.saveFileUnlinkStep
          rw [if_neg hcondF]
        have hform : (Prerenderer.saveFile fs ct pa).2
            = [FsOp.mkdirRecursiveOp (dirName pa)] ++ []
              ++ [FsOp.write pa ct] := by
          unfold Prerenderer.saveFile
          simp only [hd2, hmk, hu2]
        rw [hform]
        simp

/-- Witness for the amended C7: a removable non-directory entry (a
symlink-like `other`) at the target is unlinked and then the write
stores the content. -/
theorem C7_saveFile_attempted_behaviour_witness :
    (Prerenderer.saveFile
        [("/out", Entry.dir), ("/out/index.html", Entry.other)]
        "<html></html>" "/out/index.html").2
      = [FsOp.unlink "/out/index.html",
         FsOp.write "/out/index.html" "<html></html>"] ∧
    ∃ fs', (Prerenderer.saveFile
        [("/out", Entry.dir), ("/out/index.html", Entry.other)]
        "<html></html>" "/out/index.html").1 = .ok fs' ∧
      fsLookup fs' "/out/index.html" = some (.file "<html></html>") :=
  (C7_saveFile_attempted_behaviour
    [("/out", Entry.dir), ("/out/index.html", Entry.other)]
    "<html></html>" "/out/index.html" (by decide)).2.2.1
    (by decide) (by decide)

/-- C8: an invalid configuration makes the constructor throw the
validation error synchronously, before any resource is acquired: no
port is resolved, no `Server` is created or started — and the
constructor never launches a browser at all (that only happens in
`startBrowser`). -/
theorem C8_construct_atomic (portEnv : Nat → Nat) (o : Config)
    (e : JsErr) (h : Options.validate o = .error e) :
    Prerenderer.construct portEnv o = (.error e, []) ∧
    (∀ base port,
      Prerenderer.CtorEv.portResolved base port
        ∉ (Prerenderer.construct portEnv o).2) ∧
    (∀ port, Prerenderer.CtorEv.serverCreated port
        ∉ (Prerenderer.construct portEnv o).2) ∧
    Prerenderer.CtorEv.serverInitCalled
      ∉ (Prerenderer.construct portEnv o).2 ∧
    (∀ (pe2 : Nat → Nat) (o2 : Config),
      Prerenderer.CtorEv.browserLaunched
        ∉ (Prerenderer.construct pe2 o2).2) := by
  have hcon : Prerenderer.construct portEnv o = (.error e, []) := by
    unfold Prerenderer.construct
    rw [h]
  refine ⟨hcon, ?_, ?_, ?_, ?_⟩
  · intro base port
    rw [hcon]
    simp
  · intro port
    rw [hcon]
    simp
  · rw [hcon]
    simp
  · intro pe2 o2
    unfold Prerenderer.construct
    cases hv : Options.validate o2 with
    | error e2 => simp
    | ok b => simp

/-- Witness for C8: the empty configuration (all defaults, so
`staticDir` is `null`) fails validation and construction returns the
error with an empty resource trace. -/
theorem C8_construct_atomic_witness :
    Prerenderer.construct (fun base => base)
      { staticDir := none, routes := .arr [.str "/"],
        outputDir := .str ".", waitForElement := .null,
        useHttps := .bool true, supressOutput := .bool false,
        stopOnPageError := .bool false }
      = (.error (.error "staticDir must be explicitly set."), []) :=
  (C8_construct_atomic (fun base => base)
    { staticDir := none, routes := .arr [.str "/"],
      outputDir := .str ".", waitForElement := .null,
      useHttps := .bool true, supressOutput := .bool false,
      stopOnPageError := .bool false }
    (.error "staticDir must be explicitly set.") rfl).1

/-- C10: every `Server.init()` call generates exactly one fresh
self-signed certificate — commonName `localhost`, 30-day validity,
sha256, 2048-bit key — as its first external call, before the
protocol is decided, even when `useHttps` is false; the certificate
is passed to `https.createServer` exactly when `useHttps` is true. -/
theorem C10_server_cert_always_generated (env : Server.SelfSignedEnv)
    (o : Server.Options) :
    (Server.init env o).head? = some (Server.ServerEv.certGenerated
        [("commonName", "localhost")]
        { keySize := 2048, days := 30, algorithm := "sha256" }) ∧
    (Server.init env o).countP Server.isCertGenerated = 1 ∧
    (o.useHttps = false →
      Server.init env o
        = [Server.ServerEv.certGenerated [("commonName", "localhost")]
             { keySize := 2048, days := 30, algorithm := "sha256" },
           Server.ServerEv.listen o.port]) ∧
    (o.useHttps = true →
      Server.init env o
        = [Server.ServerEv.certGenerated [("commonName", "localhost")]
             { keySize := 2048, days := 30, algorithm := "sha256" },
           Server.ServerEv.httpsCreateServer
             (Server.generateSelfSignedCert env).priv
             (Server.generateSelfSignedCert env).cert,
           Server.ServerEv.listen o.port]) := by
  cases h : o.useHttps with
  | false =>
    refine ⟨by simp [Server.init, h], ?_, ?_, ?_⟩
    · simp [Server.init, h, Server.isCertGenerated, List.countP_cons]
    · intro _
      simp [Server.init, h]
    · intro hh
      exact absurd hh (by simp)
  | true =>
    refine ⟨by simp [Server.init, h], ?_, ?_, ?_⟩
    · simp [Server.init, h, Server.isCertGenerated, List.countP_cons]
    · intro hh
      exact absurd hh (by simp)
    · intro _
      simp [Server.init, h]

/-- Witness for C10: an HTTP server start still begins with the
certificate generation and never uses the certificate. -/
theorem C10_server_cert_always_generated_witness :
    Server.init
      { generate := fun _ _ => { priv := "KEY", cert := "CERT" } }
      { port := 3000, useHttps := false, staticDir := "/site" }
      = [Server.ServerEv.certGenerated [("commonName", "localhost")]
           { keySize := 2048, days := 30, algorithm := "sha256" },
         Server.ServerEv.listen 3000] :=
  (C10_server_cert_always_generated
    { generate := fun _ _ => { priv := "KEY", cert := "CERT" } }
    { port := 3000, useHttps := false, staticDir := "/site" }).2.2.1 rfl

end SpaPrerenderer
